import Mathlib

/-!
Verification of the client-side Vapi session wrapper and UI controller of
the `prep_ai` repository.

The embedding models:
* `createInterviewWorkflow` from `lib/vapi.sdk.ts` (workflow version with
  transcript collection — the variant the `Agent` component actually uses,
  via `getTranscript` / `onWorkflowStep` / `onFunctionCall`): its mutable
  state, its event listeners (`call-start`, `call-end`, `message`,
  `speech-start`, `speech-end`, `error`) and its public operations
  (`start`, `stop`, `clearMessages`, `destroy`, getters).
* `handleCall` and the question formatting from `components/Agent.tsx`.
* `getVapiSessionToken` from the token helper module.

Callbacks are abstracted to invocation counts (the wrapper stores at most
one callback per slot and invokes it with `cb?.(...)`; the claims under
study only count invocations).  External effects (the engine's
`vapi.start` / `vapi.stop` calls, the network fetch, the clock) are
explicit inputs or outputs of the Lean functions.
-/

namespace PrepAI

/-- JavaScript `a || d` for an optional string field: `undefined` and the
empty string (both falsy) fall back to the default. -/
def jsOrString (v : Option String) (d : String) : String :=
  match v with
  | some s => if s = "" then d else s
  | none => d

/-- The object pushed by the message listener:
`{ role, content, timestamp }`.  The same object is pushed to both
`state.transcript` and `state.messages`, so entries of both lists carry
the timestamp.  `content` is `message.transcript`, which may be absent
(`undefined`) on a malformed event, hence `Option String`. -/
structure TranscriptEntry where
  role : String
  content : Option String
  timestamp : String
deriving Repr, DecidableEq

/-- The mutable `state` object of `createInterviewWorkflow`:
`{ isConnected, messages, transcript }`. -/
structure WorkflowState where
  isConnected : Bool
  messages : List TranscriptEntry
  transcript : List TranscriptEntry
deriving Repr, DecidableEq

/-- The fresh state built at construction time. -/
def initialState : WorkflowState :=
  { isConnected := false, messages := [], transcript := [] }

/-- The payload of a `message` event.  Fields that the listener only
logs or forwards verbatim to callbacks (`step`, `functionCall`) are not
modelled; callback payloads are abstracted to invocation counts. -/
structure VapiMessage where
  type : String
  transcriptType : Option String
  role : Option String
  transcript : Option String
deriving Repr, DecidableEq

/-- How many times the message listener invoked each stored callback
(`messageCallback`, `workflowStepCallback`, `functionCallCallback`);
an invocation is counted whether or not a callback is registered, since
`cb?.(x)` fires the registered callback exactly when one is present. -/
structure HandlerCalls where
  message : Nat
  workflowStep : Nat
  functionCall : Nat
deriving Repr, DecidableEq

/-- The `vapi.on("message", ...)` listener of `createInterviewWorkflow`.
`now` is the value of `new Date().toISOString()` at handling time. -/
def onMessageEvent (st : WorkflowState) (m : VapiMessage) (now : String) :
    WorkflowState × HandlerCalls :=
  if m.type = "transcript" then
    if m.transcriptType = some "final" then
      let e : TranscriptEntry :=
        { role := jsOrString m.role "user", content := m.transcript, timestamp := now }
      ({ st with
          transcript := st.transcript ++ [e],
          messages := st.messages ++ [e] },
        { message := 1, workflowStep := 0, functionCall := 0 })
    else
      (st, { message := 0, workflowStep := 0, functionCall := 0 })
  else if m.type = "workflow-step" then
    (st, { message := 1, workflowStep := 1, functionCall := 0 })
  else if m.type = "function-call" then
    (st, { message := 1, workflowStep := 0, functionCall := 1 })
  else
    (st, { message := 0, workflowStep := 0, functionCall := 0 })

/-- The external events the SDK emitter delivers to the wrapper's
listeners.  A `message` event carries the clock reading used for the
timestamp. -/
inductive VapiEvent where
  | callStart
  | callEnd
  | message (m : VapiMessage) (now : String)
  | speechStart
  | speechEnd
  | error
deriving Repr, DecidableEq

/-- State effect of delivering one external event: the bodies of the six
`vapi.on(...)` listeners.  `call-start` sets the flag, `call-end` and
`error` clear it, `message` runs `onMessageEvent`, the speech listeners
only log and invoke their callback. -/
def onEvent (st : WorkflowState) (e : VapiEvent) : WorkflowState :=
  match e with
  | .callStart => { st with isConnected := true }
  | .callEnd => { st with isConnected := false }
  | .message m now => (onMessageEvent st m now).1
  | .speechStart => st
  | .speechEnd => st
  | .error => { st with isConnected := false }

/-- Construction-time configuration of the wrapper. -/
structure WorkflowConfig where
  publicApiKey : String
  workflowId : String
deriving Repr, DecidableEq

/-- The request `vapi.start(workflowId, { variableValues })` sent to the
engine by the wrapper's `start`. -/
structure StartRequest where
  workflowId : String
  variableValues : List (String × String)
deriving Repr, DecidableEq

/-- Error values thrown by the external transport. -/
def EngineError := String
deriving instance Repr, DecidableEq for EngineError

/-- The wrapper's `start(variableValues?)`.  If already connected it
logs a warning and returns (no throw, no engine call).  Otherwise it
forwards the variables (defaulted to `{}`) to `vapi.start`; a transport
exception is rethrown.  `engine` is the outcome of the underlying
`vapi.start` call, an input of the model.  `start` never mutates the
wrapper state. -/
def start (cfg : WorkflowConfig) (st : WorkflowState)
    (vars : Option (List (String × String))) (engine : Except EngineError Unit) :
    Except EngineError (WorkflowState × Option StartRequest) :=
  if st.isConnected then
    Except.ok (st, none)
  else
    match engine with
    | Except.ok _ =>
        Except.ok (st, some { workflowId := cfg.workflowId, variableValues := vars.getD [] })
    | Except.error e => Except.error e

/-- The wrapper's `stop()`: if connected, calls `vapi.stop()` and sets
`isConnected` to `false`; otherwise a no-op.  The boolean records
whether engine termination was requested. -/
def stop (st : WorkflowState) : WorkflowState × Bool :=
  if st.isConnected then ({ st with isConnected := false }, true) else (st, false)

/-- The wrapper's `clearMessages()`: resets both lists. -/
def clearMessages (st : WorkflowState) : WorkflowState :=
  { st with messages := [], transcript := [] }

/-- The wrapper's `destroy()`: calls `vapi.stop()` if connected (the
boolean records whether it did), then clears both lists.  It does not
write `isConnected`. -/
def destroy (st : WorkflowState) : WorkflowState × Bool :=
  ({ st with messages := [], transcript := [] }, st.isConnected)

/-- The wrapper's `getMessages()`. -/
def getMessages (st : WorkflowState) : List TranscriptEntry := st.messages

/-- The wrapper's `getTranscript()`. -/
def getTranscript (st : WorkflowState) : List TranscriptEntry := st.transcript

/-- The wrapper's `isConnected()`. -/
def isConnectedOp (st : WorkflowState) : Bool := st.isConnected

/-- One step of the wrapper's observable behaviour: either the SDK
delivers an external event, or a caller invokes a public operation. -/
inductive Action where
  | ev (e : VapiEvent)
  | opStart (vars : Option (List (String × String))) (engine : Except EngineError Unit)
  | opStop
  | opDestroy
  | opClearMessages

/-- State after one action.  A throwing `start` leaves the state as it
was (the exception propagates before any mutation). -/
def step (cfg : WorkflowConfig) (st : WorkflowState) (a : Action) : WorkflowState :=
  match a with
  | .ev e => onEvent st e
  | .opStart vars engine =>
      match start cfg st vars engine with
      | Except.ok (st2, _) => st2
      | Except.error _ => st
  | .opStop => (stop st).1
  | .opDestroy => (destroy st).1
  | .opClearMessages => clearMessages st

/-! ### `components/Agent.tsx`: call status and `handleCall` -/

/-- The `CallStatus` enum of the Agent component. -/
inductive CallStatus where
  | INACTIVE
  | CONNECTING
  | ACTIVE
  | FINISHED
deriving Repr, DecidableEq

/-- The props of the Agent component that `handleCall` reads.  `type`
is the session purpose (`"generate"` or an interview type);
`questions` is absent (`undefined`) or a list. -/
structure AgentProps where
  userName : Option String
  userId : Option String
  type : String
  questions : Option (List String)
deriving Repr, DecidableEq

/-- `questions.map((question, index) => ` the string
`(index+1) ++ ". " ++ question` `).join("\n")` from `handleCall`. -/
def formatQuestions (qs : List String) : String :=
  String.intercalate "\n" (qs.enum.map (fun p => toString (p.1 + 1) ++ ". " ++ p.2))

/-- The `variableValues` record built inside `handleCall`: `username`
and `userid` (with `||` fallbacks), plus `questions` when the session
type is not `"generate"` and a non-empty question list was supplied. -/
def agentVariableValues (p : AgentProps) : List (String × String) :=
  let base := [("username", jsOrString p.userName "Candidate"),
               ("userid", jsOrString p.userId "unknown")]
  if p.type ≠ "generate" then
    match p.questions with
    | some qs => if 0 < qs.length then base ++ [("questions", formatQuestions qs)] else base
    | none => base
  else base

/-- `handleCall` of the Agent component.  Inputs: the current call
status, whether the workflow ref is initialized, the wrapper's
`isConnected()` reading, the props, and the outcome of the wrapper's
`start` call.  Output: the call status after the handler returns and
the list of `start` invocations it made (each with its
`variableValues`).  A missing workflow or an already-connected wrapper
returns early; otherwise status is set to `CONNECTING` and `start` is
invoked once inside `try`; on a thrown error the `catch` sets the
status to `INACTIVE`. -/
def handleCall (status : CallStatus) (wfPresent connected : Bool)
    (p : AgentProps) (startResult : Except EngineError Unit) :
    CallStatus × List (List (String × String)) :=
  if wfPresent = false then (status, [])
  else if connected then (status, [])
  else
    match startResult with
    | Except.ok _ => (CallStatus.CONNECTING, [agentVariableValues p])
    | Except.error _ => (CallStatus.INACTIVE, [agentVariableValues p])

/-! ### `getVapiSessionToken` -/

/-- Outcome of the `fetch` to `/api/vapi/token`: a network failure
(rejected promise), or a response with its `ok` flag and body.  The
body is `none` when `response.json()` throws (unparseable), and
`some t` when it parses to an object whose `token` field is `t`
(`none` for a parsed body with no `token` field, i.e. `undefined`). -/
inductive FetchOutcome where
  | networkError
  | response (ok : Bool) (body : Option (Option String))
deriving Repr, DecidableEq

/-- The `try` block of `getVapiSessionToken`: throws on a rejected
fetch, a non-ok response (`"Failed to get session token"`), or an
unparseable body; otherwise resolves with `data.token` (possibly
`undefined`). -/
def tokenFetchTry (o : FetchOutcome) : Except String (Option String) :=
  match o with
  | .networkError => Except.error "fetch failed"
  | .response ok body =>
      if ok = false then Except.error "Failed to get session token"
      else
        match body with
        | none => Except.error "invalid json"
        | some t => Except.ok t

/-- `getVapiSessionToken(userId)`: the `try` block with its `catch`,
which logs and returns `process.env.NEXT_PUBLIC_VAPI_WEB_TOKEN || ""`.
`env` is the statically configured public token (`none` when unset).
The result is the resolved value: `some s` for a string, `none` for
`undefined`.  The function is total: no exception escapes. -/
def getVapiSessionToken (env : Option String) (o : FetchOutcome) : Option String :=
  match tokenFetchTry o with
  | Except.ok t => t
  | Except.error _ => some (env.getD "")

/-! ## Helper lemmas -/

/-- The message listener never writes the connection flag. -/
theorem onMessageEvent_isConnected (st : WorkflowState) (m : VapiMessage) (now : String) :
    ((onMessageEvent st m now).1).isConnected = st.isConnected := by
  unfold onMessageEvent
  repeat' split
  all_goals rfl

/-- `start` never mutates the wrapper state, whatever the engine does. -/
theorem step_opStart_eq (cfg : WorkflowConfig) (st : WorkflowState)
    (vars : Option (List (String × String))) (engine : Except EngineError Unit) :
    step cfg st (Action.opStart vars engine) = st := by
  unfold step start
  cases hc : st.isConnected <;> cases engine <;> simp [hc]

/-- Enumerating-then-mapping equals zipping with an index range,
generalized over the starting index. -/
theorem map_enumFrom_eq_zipWith {α β : Type} (f : Nat → α → β) (n : Nat) (l : List α) :
    (List.enumFrom n l).map (fun p => f p.1 p.2) =
      List.zipWith f (List.range' n l.length) l := by
  induction l generalizing n with
  | nil => rfl
  | cons a t ih =>
      simp [List.enumFrom, List.range', List.zipWith, ih]

/-- `formatQuestions` is the newline join of the questions numbered from 1. -/
theorem formatQuestions_eq_zipWith (qs : List String) :
    formatQuestions qs =
      String.intercalate "\n"
        (List.zipWith (fun i q => toString (i + 1) ++ ". " ++ q)
          (List.range qs.length) qs) := by
  unfold formatQuestions
  rw [List.enum]
  rw [map_enumFrom_eq_zipWith (fun i q => toString (i + 1) ++ ". " ++ q) 0 qs]
  rw [List.range_eq_range']

/-- Looking up `questions` in the variable record built by `handleCall`. -/
theorem lookup_questions_var (u v c : String) :
    List.lookup "questions" [("username", u), ("userid", v), ("questions", c)] = some c := rfl

/-! ## Claim theorems -/

/-- Fixed concrete configuration used by witness instances. -/
def cfg0 : WorkflowConfig := { publicApiKey := "pk", workflowId := "wf" }

/-- A wrapper state whose call is connected. -/
def connectedState : WorkflowState :=
  { isConnected := true, messages := [], transcript := [] }

/-- Claim C2: a `message` event with type `transcript`, transcriptType
`final`, role `user` and transcript text `hello` appends exactly one
entry with role `user` and content `hello` to the messages list, exactly
one (timestamped) such entry to the transcript list, and invokes the
generic message callback exactly once (and no specialized callback).
The appended entry is the same timestamped object in both lists. -/
theorem C2_final_transcript_appends (st : WorkflowState) (now : String) :
    onMessageEvent st
        { type := "transcript", transcriptType := some "final",
          role := some "user", transcript := some "hello" } now =
      ({ st with
          messages := st.messages ++
            [{ role := "user", content := some "hello", timestamp := now }],
          transcript := st.transcript ++
            [{ role := "user", content := some "hello", timestamp := now }] },
        { message := 1, workflowStep := 0, functionCall := 0 }) := rfl

/-- Claim C3: a `message` event with type `transcript` and a
transcriptType other than `final` (e.g. `partial`) leaves the state
unchanged and invokes no callback. -/
theorem C3_nonfinal_transcript_dropped (st : WorkflowState) (now : String)
    (tt role tr : Option String) (h : tt ≠ some "final") :
    onMessageEvent st { type := "transcript", transcriptType := tt, role := role, transcript := tr }
        now =
      (st, { message := 0, workflowStep := 0, functionCall := 0 }) := by
  unfold onMessageEvent
  simp [h]

/-- Witness for C3 at a concrete partial transcript event. -/
theorem C3_witness :
    onMessageEvent initialState
        { type := "transcript", transcriptType := some "partial",
          role := some "user", transcript := some "hi" } "t0" =
      (initialState, { message := 0, workflowStep := 0, functionCall := 0 }) :=
  C3_nonfinal_transcript_dropped initialState "t0" (some "partial") (some "user") (some "hi")
    (by decide)

/-- Claim C10: a `message` event whose type is none of `transcript`,
`workflow-step` or `function-call` leaves the state (lists and
connection flag) unchanged and invokes no callback. -/
theorem C10_unknown_message_noop (st : WorkflowState) (m : VapiMessage) (now : String)
    (h1 : m.type ≠ "transcript") (h2 : m.type ≠ "workflow-step")
    (h3 : m.type ≠ "function-call") :
    onMessageEvent st m now =
      (st, { message := 0, workflowStep := 0, functionCall := 0 }) := by
  unfold onMessageEvent
  simp [h1, h2, h3]

/-- Witness for C10 at a concrete `status-update` event. -/
theorem C10_witness :
    onMessageEvent initialState
        { type := "status-update", transcriptType := none, role := none, transcript := none }
        "t0" =
      (initialState, { message := 0, workflowStep := 0, functionCall := 0 }) :=
  C10_unknown_message_noop initialState
    { type := "status-update", transcriptType := none, role := none, transcript := none } "t0"
    (by decide) (by decide) (by decide)

/-- Claim C4: calling `start` while connected performs no engine
session-start call, does not throw, and leaves the state unchanged;
conversely a session-start request is forwarded only from a
disconnected state. -/
theorem C4_start_guarded (cfg : WorkflowConfig) (st : WorkflowState)
    (vars : Option (List (String × String))) (engine : Except EngineError Unit) :
    (st.isConnected = true → start cfg st vars engine = Except.ok (st, none)) ∧
    (∀ st2 req, start cfg st vars engine = Except.ok (st2, some req) →
      st.isConnected = false) := by
  constructor
  · intro h
    simp [start, h]
  · intro st2 req h
    cases hc : st.isConnected with
    | false => rfl
    | true => simp [start, hc] at h

/-- Witness for C4: from a concrete connected state, `start` is an
observable no-op. -/
theorem C4_witness :
    start cfg0 connectedState none (Except.ok ()) = Except.ok (connectedState, none) :=
  (C4_start_guarded cfg0 connectedState none (Except.ok ())).1 rfl

/-- Claim C5: after `clearMessages`, `getMessages` and `getTranscript`
return empty lists and `isConnected` is unchanged. -/
theorem C5_clearMessages_resets (st : WorkflowState) :
    getMessages (clearMessages st) = [] ∧ getTranscript (clearMessages st) = [] ∧
      isConnectedOp (clearMessages st) = isConnectedOp st := by
  refine ⟨rfl, rfl, rfl⟩

/-- Claim C1 counterexample: the claim says no public operation changes
the `isConnected` flag by itself, but from a connected state the public
`stop` operation (delivered through `step`, with no `call-end` or
`error` event) flips the flag to `false`. -/
theorem C1_counterexample :
    isConnectedOp connectedState = true ∧
      isConnectedOp (step cfg0 connectedState Action.opStop) = false :=
  ⟨rfl, rfl⟩

/-- Claim C1 (amended): `isConnected` changes from `false` to `true`
only on a `call-start` event, and from `true` to `false` only on a
`call-end` event, an `error` event, or a `stop()` call while connected;
`start`, `destroy` and `clearMessages` never change the flag. -/
theorem C1_flag_transitions (cfg : WorkflowConfig) (st : WorkflowState) (a : Action)
    (h : (step cfg st a).isConnected ≠ st.isConnected) :
    (st.isConnected = false ∧ a = Action.ev VapiEvent.callStart) ∨
    (st.isConnected = true ∧
      (a = Action.ev VapiEvent.callEnd ∨ a = Action.ev VapiEvent.error ∨
        a = Action.opStop)) := by
  cases hst : st.isConnected with
  | false =>
      left
      refine ⟨rfl, ?_⟩
      cases a with
      | ev e =>
          cases e with
          | callStart => rfl
          | callEnd => exact absurd (by simp [step, onEvent, hst]) h
          | message m now =>
              exact absurd (by simpa [step, onEvent] using onMessageEvent_isConnected st m now) h
          | speechStart => exact absurd rfl h
          | speechEnd => exact absurd rfl h
          | error => exact absurd (by simp [step, onEvent, hst]) h
      | opStart vars engine =>
          exact absurd (congrArg WorkflowState.isConnected (step_opStart_eq cfg st vars engine)) h
      | opStop => exact absurd (by simp [step, stop, hst]) h
      | opDestroy => exact absurd rfl h
      | opClearMessages => exact absurd rfl h
  | true =>
      right
      refine ⟨rfl, ?_⟩
      cases a with
      | ev e =>
          cases e with
          | callStart => exact absurd (by simp [step, onEvent, hst]) h
          | callEnd => exact Or.inl rfl
          | message m now =>
              exact absurd (by simpa [step, onEvent] using onMessageEvent_isConnected st m now) h
          | speechStart => exact absurd rfl h
          | speechEnd => exact absurd rfl h
          | error => exact Or.inr (Or.inl rfl)
      | opStart vars engine =>
          exact absurd (congrArg WorkflowState.isConnected (step_opStart_eq cfg st vars engine)) h
      | opStop => exact Or.inr (Or.inr rfl)
      | opDestroy => exact absurd rfl h
      | opClearMessages => exact absurd rfl h

/-- Witness for the amended C1, instantiated at the `stop` operation
from a connected state. -/
theorem C1_witness :
    (connectedState.isConnected = false ∧ Action.opStop = Action.ev VapiEvent.callStart) ∨
    (connectedState.isConnected = true ∧
      (Action.opStop = Action.ev VapiEvent.callEnd ∨ Action.opStop = Action.ev VapiEvent.error ∨
        (Action.opStop : Action) = Action.opStop)) :=
  C1_flag_transitions cfg0 connectedState Action.opStop (by decide)

/-- Claim C6 counterexample: the claim says two successive `destroy`
calls leave `isConnected` false for every starting state, but from a
connected state the flag is still `true` after both calls (`destroy`
never writes the flag; it falls only on a later `call-end`/`error`
event). -/
theorem C6_counterexample :
    isConnectedOp connectedState = true ∧
      isConnectedOp (destroy (destroy connectedState).1).1 = true :=
  ⟨rfl, rfl⟩

/-- Claim C6 (amended): `destroy` called twice in succession never
throws (it is a total operation); each call requests engine termination
exactly when `isConnected` is `true` at that call; both lists end
empty; and the flag is left unchanged — in particular it remains
`false` whenever it was `false` before. -/
theorem C6_destroy_twice (st : WorkflowState) :
    (destroy st).2 = st.isConnected ∧
    (destroy (destroy st).1).2 = st.isConnected ∧
    isConnectedOp (destroy (destroy st).1).1 = st.isConnected ∧
    getMessages (destroy (destroy st).1).1 = [] ∧
    getTranscript (destroy (destroy st).1).1 = [] :=
  ⟨rfl, rfl, rfl, rfl, rfl⟩

/-- Claim C7: when the wrapper's `start` throws inside `handleCall`
(workflow present, not connected), the handler catches it, sets the
call status to `INACTIVE`, and has invoked `start` exactly once — no
retry. -/
theorem C7_start_failure_reverts (status : CallStatus) (p : AgentProps) (e : EngineError) :
    handleCall status true false p (Except.error e) =
      (CallStatus.INACTIVE, [agentVariableValues p]) := rfl

/-- Claim C8: with a non-`generate` session type and a non-empty
question list, `handleCall` invokes `start` once with a variable record
whose `questions` entry is the questions each prefixed by their 1-based
index and `". "`, joined by newlines. -/
theorem C8_questions_enumeration (status : CallStatus) (p : AgentProps) (qs : List String)
    (h1 : p.type ≠ "generate") (h2 : p.questions = some qs) (h3 : 0 < qs.length) :
    (handleCall status true false p (Except.ok ())).2 = [agentVariableValues p] ∧
    (agentVariableValues p).lookup "questions" =
      some (String.intercalate "\n"
        (List.zipWith (fun i q => toString (i + 1) ++ ". " ++ q)
          (List.range qs.length) qs)) := by
  refine ⟨rfl, ?_⟩
  have hv : agentVariableValues p =
      [("username", jsOrString p.userName "Candidate"),
       ("userid", jsOrString p.userId "unknown"),
       ("questions", formatQuestions qs)] := by
    simp [agentVariableValues, h1, h2, h3]
  rw [hv, lookup_questions_var, formatQuestions_eq_zipWith]

/-- Concrete props used by the C8 witness. -/
def props0 : AgentProps :=
  { userName := some "Jane", userId := some "u1", type := "interview",
    questions := some ["A", "B"] }

/-- Witness for C8 at a concrete two-question interview. -/
theorem C8_witness :
    (handleCall CallStatus.INACTIVE true false props0 (Except.ok ())).2 =
        [agentVariableValues props0] ∧
    (agentVariableValues props0).lookup "questions" =
      some (String.intercalate "\n"
        (List.zipWith (fun i q => toString (i + 1) ++ ". " ++ q)
          (List.range (["A", "B"] : List String).length) ["A", "B"])) :=
  C8_questions_enumeration CallStatus.INACTIVE props0 ["A", "B"] (by decide) rfl (by decide)

/-- Claim C9: whenever the token fetch fails — the request rejects, the
response is non-ok, or the body fails to parse — `getVapiSessionToken`
propagates no exception and returns the statically configured public
token. -/
theorem C9_token_fallback (pub : String) (o : FetchOutcome)
    (h : o = FetchOutcome.networkError ∨ (∃ b, o = FetchOutcome.response false b) ∨
      o = FetchOutcome.response true none) :
    getVapiSessionToken (some pub) o = some pub := by
  rcases h with h | ⟨b, h⟩ | h <;> subst h <;> rfl

/-- Witness for C9 at a concrete non-ok response. -/
theorem C9_witness :
    getVapiSessionToken (some "public-token") (FetchOutcome.response false none) =
      some "public-token" :=
  C9_token_fallback "public-token" (FetchOutcome.response false none)
    (Or.inr (Or.inl ⟨none, rfl⟩))

end PrepAI
